import Mathlib

/-!
Verification of the RAG query-engine specification of the
Physical-AI-and-Humanoid-Robotics repository.

The repository ships the React frontend (chat widget, chat hook, selection
handler) as source; the backend query engine (content chunker, vector index,
out-of-scope classifier, orchestrator) exists only as the specification and
design documents, so those components are modelled from the spec text, while
the frontend components are embedded directly from the JavaScript source.

Numeric similarity scores are modelled as exact rationals (the spec's 0-1
cosine scale); JavaScript strings are modelled as Lean strings or lists of
characters.
-/

/-! ## Vector Index (modelled from the spec, section 4.3) -/

/-- Modelled from the spec: a stored chunk record of the Vector Index
(`upsert(chunkId, vector, payload)`): embedding vector plus payload metadata
(chapter id, module id, heading label, text, and `position`, the ordering
index within the source document). The backend index adapter is not present
under `src/`. -/
structure IndexEntry where
  chunkId : String
  vector : List ℚ
  text : String
  chapterId : String
  moduleId : String
  heading : String
  position : Nat
deriving DecidableEq

/-- Modelled from the spec: the Vector Index state, the set of upserted
entries. -/
structure VIndex where
  entries : List IndexEntry
deriving DecidableEq

/-- One (Chunk, similarityScore) pair of a RetrievalResult. -/
structure Scored where
  entry : IndexEntry
  score : ℚ
deriving DecidableEq

/-- The spec's result order: similarity descending, ties broken by chunk
`position` ascending. -/
def rankBefore (a b : Scored) : Prop :=
  b.score < a.score ∨ (a.score = b.score ∧ a.entry.position ≤ b.entry.position)

instance : DecidableRel rankBefore := fun a b => by
  unfold rankBefore
  infer_instance

instance : IsTotal Scored rankBefore := ⟨by
  intro a b
  rcases lt_trichotomy a.score b.score with h | h | h
  · exact Or.inr (Or.inl h)
  · rcases le_total a.entry.position b.entry.position with hp | hp
    · exact Or.inl (Or.inr ⟨h, hp⟩)
    · exact Or.inr (Or.inr ⟨h.symm, hp⟩)
  · exact Or.inl (Or.inl h)⟩

instance : IsTrans Scored rankBefore := ⟨by
  intro a b c hab hbc
  rcases hab with h1 | ⟨e1, p1⟩
  · rcases hbc with h2 | ⟨e2, p2⟩
    · exact Or.inl (h2.trans h1)
    · exact Or.inl (by rw [← e2]; exact h1)
  · rcases hbc with h2 | ⟨e2, p2⟩
    · exact Or.inl (by rw [e1]; exact h2)
    · exact Or.inr ⟨e1.trans e2, p1.trans p2⟩⟩

/-- Modelled from the spec: the candidate set of a query, optionally
restricted by the metadata filter (chapterId equality). -/
def VIndex.candidates (idx : VIndex) (filt : Option String) : List IndexEntry :=
  match filt with
  | some ch => idx.entries.filter (fun e => e.chapterId == ch)
  | none => idx.entries

/-- Modelled from the spec: `query(vector, topK, filter?) -> RetrievalResult`.
Scores every candidate with the injected similarity function (cosine
similarity is an external numeric computation, abstracted as a parameter per
the spec's injected-capability design note), sorts by similarity descending
with position-ascending tie-break, and returns up to `topK` entries. -/
def VIndex.query (sim : List ℚ → List ℚ → ℚ) (idx : VIndex) (qv : List ℚ)
    (topK : Nat) (filt : Option String) : List Scored :=
  (((idx.candidates filt).map (fun e => Scored.mk e (sim qv e.vector))).insertionSort
    rankBefore).take topK

/-! ## Out-of-Scope Classifier (modelled from the spec, section 4.4) -/

/-- A question as the classifier sees it: the question text and the optional
explicit module context the spec's tier 3 consults (the spec's
"explicit chapterId/module context"). -/
structure Question where
  content : String
  moduleCtx : Option String
deriving DecidableEq

/-- Modelled from the spec: classifier configuration, the keyword blacklist
and the similarity threshold (default 0.5 on the 0-1 cosine scale). -/
structure OOSConfig where
  blacklist : List String
  threshold : ℚ
deriving DecidableEq

/-- The rational 1/2 as an explicit reduced fraction (kernel-reducible,
unlike rational division, whose gcd normalization is opaque to `decide`). -/
def ratHalf : ℚ := ⟨1, 2, by norm_num, by norm_num⟩

/-- The rational 3/5 as an explicit reduced fraction. -/
def ratThreeFifths : ℚ := ⟨3, 5, by norm_num, by norm_num⟩

/-- The spec's default similarity threshold: 0.5. -/
def defaultOOSConfig (bl : List String) : OOSConfig :=
  OOSConfig.mk bl ratHalf

/-- Output of the classifier per the spec:
`{inScope: boolean, reason?: string, suggestedTopics?: string[]}`. -/
structure OOSResult where
  inScope : Bool
  reason : Option String
  suggestedTopics : List String
deriving DecidableEq

/-- Case-fold a string to a character list (the spec's case-insensitive
matching). -/
def lowerChars (s : String) : List Char :=
  s.toList.map Char.toLower

/-- Substring occurrence on character lists: `needle` occurs contiguously
inside `hay`. -/
def containsSeq (needle hay : List Char) : Bool :=
  hay.tails.any (fun t => needle.isPrefixOf t)

/-- Modelled from the spec: tier 1, the question text is scanned
(case-insensitive substring match) against the configured list of disallowed
topic terms. -/
def blacklistHit (bl : List String) (text : String) : Bool :=
  bl.any (fun term => containsSeq (lowerChars term) (lowerChars text))

/-- Modelled from the spec: tier 3, module classification — the question
carries an explicit module context and the best-matching chunk's module
differs from it. -/
def moduleMismatch (q : Question) (best : Scored) : Bool :=
  match q.moduleCtx with
  | some m => if m = best.entry.moduleId then false else true
  | none => false

/-- How many nearest chunks feed `suggestedTopics`. -/
def suggestTopicsK : Nat := 3

/-- Modelled from the spec: `suggestedTopics` are derived from the
headings of the nearest chunks found by the semantic query, even when the
result is OUT-OF-SCOPE. -/
def suggestedTopicsOf (sim : List ℚ → List ℚ → ℚ) (idx : VIndex)
    (qv : List ℚ) : List String :=
  (VIndex.query sim idx qv suggestTopicsK none).map (fun s => s.entry.heading)

/-- Modelled from the spec: the multi-tier OOS decision. Tier 1 (keyword
blacklist) forces OUT-OF-SCOPE immediately; tier 2 embeds the question,
queries the Vector Index for its single best-matching chunk and classifies
OUT-OF-SCOPE when the top similarity score is below the threshold (or when
the index returns no match at all); tier 3 flags a module-classification
mismatch; a question passing all tiers is IN-SCOPE. The embedding client and
cosine similarity are injected as function parameters. -/
def classifyOOS (embedF : String → List ℚ) (sim : List ℚ → List ℚ → ℚ)
    (idx : VIndex) (cfg : OOSConfig) (q : Question) : OOSResult :=
  let qv := embedF q.content
  let topics := suggestedTopicsOf sim idx qv
  if blacklistHit cfg.blacklist q.content then
    OOSResult.mk false (some "blacklist") topics
  else
    match (VIndex.query sim idx qv 1 none).head? with
    | none => OOSResult.mk false (some "no-match") topics
    | some best =>
      if best.score < cfg.threshold then
        OOSResult.mk false (some "low-similarity") topics
      else if moduleMismatch q best then
        OOSResult.mk false (some "module-mismatch") topics
      else
        OOSResult.mk true none topics

/-! ## RAG Orchestrator (modelled from the spec, sections 4.5-4.7) -/

/-- Message role within a Session. -/
inductive Role
  | user
  | assistant
deriving DecidableEq

/-- A persisted Message of a Session (spec section 3): role, content and,
for assistant messages, the cited sources. -/
structure SMsg where
  role : Role
  content : String
  sources : List String
deriving DecidableEq

/-- The incoming chat request (spec section 6). `moduleCtx` is the module
context of the request's chapter, which the spec's tier-3 check consults. -/
structure ChatRequest where
  session_id : Option String
  chapter_id : Option String
  content : String
  selected_text : Option String
  moduleCtx : Option String
deriving DecidableEq

/-- Modelled from the spec: failure of the external LLM call
(`GenerationError`). -/
inductive GenError
  | timeout
  | providerError
  | malformed
deriving DecidableEq

/-- Modelled from the spec: `generate(context) -> {text, citedChunkIds}`. -/
structure GenOutput where
  text : String
  citedChunkIds : List String
deriving DecidableEq

/-- Modelled from the spec (4.5): the bounded context assembled for the
Answer Generator — system framing, the selected-text excerpt, the retrieved
chunk excerpts and the recent conversation turns. -/
structure GenContext where
  systemFraming : String
  selectedText : Option String
  excerpts : List String
  turns : List SMsg
deriving DecidableEq

/-- The orchestrator's injected external capabilities (spec section 9):
embedding client, similarity measure and answer generator. The generator
returns `Except` to model `GenerationError`. -/
structure OrchDeps where
  embedF : String → List ℚ
  sim : List ℚ → List ℚ → ℚ
  generate : GenContext → Except GenError GenOutput

/-- The spec's default sliding window: last 10 messages. -/
def contextWindowSize : Nat := 10

/-- System framing instructing the generator to answer only from the
supplied excerpts. -/
def framingText : String :=
  "Answer only from the supplied excerpts and decline otherwise."

/-- The last `n` elements of a list, oldest dropped first (JavaScript
`slice(-n)`). -/
def sliceLast (n : Nat) (l : List α) : List α :=
  l.drop (l.length - n)

/-- Default retrieval depth. -/
def topKDefault : Nat := 5

/-- The user Message persisted for an incoming request. -/
def userMessageOf (req : ChatRequest) : SMsg :=
  SMsg.mk Role.user req.content []

/-- The orchestrator's retrieval: query the Vector Index with the embedded
question. -/
def orchRetrieval (deps : OrchDeps) (idx : VIndex) (req : ChatRequest) :
    List Scored :=
  VIndex.query deps.sim idx (deps.embedF req.content) topKDefault none

/-- Modelled from the spec (4.5): assemble the generator context from the
question's retrieval, the optional selected text and the session's sliding
window of prior turns. -/
def buildGenContext (req : ChatRequest) (retrieval : List Scored)
    (sess : List SMsg) : GenContext :=
  GenContext.mk framingText req.selected_text
    (retrieval.map (fun s => s.entry.text))
    (sliceLast contextWindowSize sess)

/-- The exact context the orchestrator hands to the generator for a request
arriving on session state `sess`. -/
def orchContext (deps : OrchDeps) (idx : VIndex) (sess : List SMsg)
    (req : ChatRequest) : GenContext :=
  buildGenContext req (orchRetrieval deps idx req)
    (sess ++ [userMessageOf req])

/-- The response returned to the UI (spec section 6); `ok = false` models the
5xx transient-error response. -/
structure ChatResponse where
  response : String
  is_out_of_scope : Bool
  sources : List String
  ok : Bool
deriving DecidableEq

/-- Modelled from the spec: the templated refusal with suggested topics. -/
def refusalText (topics : List String) : String :=
  "I can only answer questions about the textbook content. The textbook covers these related topics: "
    ++ String.intercalate ", " topics

/-- The user-facing apologetic message on generation failure. -/
def apologyResponseText : String :=
  "Sorry, something went wrong. Please try again."

/-- Modelled from the spec (4.7): the orchestrator's per-request control
flow. Persist the user Message; classify; on OUT-OF-SCOPE persist a
templated refusal as the assistant Message; otherwise retrieve, build
context and generate — on success persist the assistant Message with its
sources, on failure persist nothing further and return the transient-error
response. Returns the session's message list after the request together with
the response. -/
def handleChatMessage (deps : OrchDeps) (cfg : OOSConfig) (idx : VIndex)
    (sess : List SMsg) (req : ChatRequest) : List SMsg × ChatResponse :=
  let sess1 := sess ++ [userMessageOf req]
  let cls := classifyOOS deps.embedF deps.sim idx cfg
    (Question.mk req.content req.moduleCtx)
  if cls.inScope then
    let retrieval := orchRetrieval deps idx req
    match deps.generate (orchContext deps idx sess req) with
    | Except.error _ =>
      (sess1, ChatResponse.mk apologyResponseText false [] false)
    | Except.ok out =>
      (sess1
          ++ [SMsg.mk Role.assistant out.text
              (retrieval.map (fun s => s.entry.chunkId))],
        ChatResponse.mk out.text false
          (retrieval.map (fun s => s.entry.chunkId)) true)
  else
    (sess1 ++ [SMsg.mk Role.assistant (refusalText cls.suggestedTopics) []],
      ChatResponse.mk (refusalText cls.suggestedTopics) true [] true)

/-- Concrete orchestrator dependencies whose generator always fails. -/
def orchDepsEx : OrchDeps :=
  OrchDeps.mk (fun _ => [1]) (fun _ _ => 1)
    (fun _ => Except.error GenError.timeout)

/-- Concrete in-scope chat request. -/
def chatReqEx : ChatRequest :=
  ChatRequest.mk none (some "ch-2-1") "What is ROS2" none none

/-- Concrete index entry used to evaluate the classifier on explicit
inputs. -/
def oosEntryEx : IndexEntry :=
  IndexEntry.mk "c1" [1] "ROS2 basics" "ch-2-1" "mod-2-ros2" "ROS2 Fundamentals" 0

/-- Concrete one-entry index. -/
def oosIdxEx : VIndex := VIndex.mk [oosEntryEx]

/-- Concrete configuration with the default 0.5 threshold and an empty
blacklist. -/
def oosCfgEx : OOSConfig := OOSConfig.mk [] ratHalf

/-- Concrete similarity function scoring every pair 3/5. -/
def oosSimEx : List ℚ → List ℚ → ℚ := fun _ _ => ratThreeFifths

/-- Concrete embedding function. -/
def oosEmbedEx : String → List ℚ := fun _ => [1]

/-- Concrete question carrying a module context that differs from the
module of the best-matching chunk. -/
def oosQEx : Question := Question.mk "how do transformers work" (some "mod-5-vla")

/-- The concrete best-matching scored chunk for `oosQEx` on `oosIdxEx`. -/
def oosScoredEx : Scored := Scored.mk oosEntryEx ratThreeFifths

/-! ## Content Chunker (modelled from the spec, section 4.1) -/

/-- A source-document block as the chunker walks it: a run of prose tokens,
or an atomic fenced code / math block. Tokens (the spec's "tokens") are the
chunker's unit of length. -/
inductive Block
  | prose (toks : List String)
  | code (toks : List String)
  | math (toks : List String)
deriving DecidableEq

/-- Chunk kind (spec section 3: prose, code, math). -/
inductive ChunkKind
  | prose
  | code
  | math
deriving DecidableEq

/-- A produced chunk: kind, full token list (including the re-included
overlap region), and `carried`, the number of leading tokens re-included
from the previous chunk — the intentional overlap (0 for atomic chunks and
for the first chunk). -/
structure Chunk where
  kind : ChunkKind
  toks : List String
  carried : Nat
deriving DecidableEq

/-- Chunking parameters: the target chunk size in tokens (the spec's target
size band is represented by its closing threshold; the overlap fraction is
the spec's ~20%). -/
structure ChunkerParams where
  target : Nat
deriving DecidableEq

/-- The trailing ~20% of a closed chunk, re-included at the start of the
next chunk. -/
def overlapTail (l : List String) : List String :=
  l.drop (l.length - l.length / 5)

/-- Chunker state after consuming a prose run: the chunks closed so far, the
open buffer, and how many of the buffer's leading tokens are carried
overlap. -/
structure ProseState where
  closed : List Chunk
  carried : Nat
  buf : List String
deriving DecidableEq

/-- Modelled from the spec: accumulate prose tokens into the open buffer;
when the running length reaches the target size, close the chunk, then
re-open the next chunk with the trailing ~20% of the closed chunk as
overlap. The Content Chunker itself is not present under `src/`. -/
def chunkTokens (p : ChunkerParams) (carried : Nat) (buf : List String) :
    List String → ProseState
  | [] => ProseState.mk [] carried buf
  | t :: ts =>
    let buf1 := buf ++ [t]
    if p.target ≤ buf1.length then
      let ov := overlapTail buf1
      let rest := chunkTokens p ov.length ov ts
      ProseState.mk (Chunk.mk ChunkKind.prose buf1 carried :: rest.closed)
        rest.carried rest.buf
    else
      chunkTokens p carried buf1 ts

/-- Flush the open prose buffer as a final (possibly undersized) chunk. -/
def flushBuf (carried : Nat) (buf : List String) : List Chunk :=
  if buf.isEmpty then [] else [Chunk.mk ChunkKind.prose buf carried]

/-- Modelled from the spec: walk the document's blocks. Prose accumulates
through `chunkTokens`; a code or math block flushes the current prose chunk
immediately (even if under target size) and is emitted as its own atomic
chunk, after which prose accumulation restarts without overlap. -/
def chunkBlocks (p : ChunkerParams) (carried : Nat) (buf : List String) :
    List Block → List Chunk
  | [] => flushBuf carried buf
  | Block.prose ts :: bs =>
    let st := chunkTokens p carried buf ts
    st.closed ++ chunkBlocks p st.carried st.buf bs
  | Block.code ts :: bs =>
    flushBuf carried buf
      ++ Chunk.mk ChunkKind.code ts 0 :: chunkBlocks p 0 [] bs
  | Block.math ts :: bs =>
    flushBuf carried buf
      ++ Chunk.mk ChunkKind.math ts 0 :: chunkBlocks p 0 [] bs

/-- The Content Chunker on a whole document. -/
def chunkDocument (p : ChunkerParams) (bs : List Block) : List Chunk :=
  chunkBlocks p 0 [] bs

/-- A chunk's tokens minus its carried overlap region: its new content. -/
def newToks (c : Chunk) : List String :=
  c.toks.drop c.carried

/-- The token list of a block. -/
def blockToks : Block → List String
  | Block.prose ts => ts
  | Block.code ts => ts
  | Block.math ts => ts

/-- All tokens of a document, in document order. -/
def docTokens (bs : List Block) : List String :=
  (bs.map blockToks).flatten

/-- The ordered sequence of atomic (code/math) chunks with their full
text. -/
def atomChunks (cs : List Chunk) : List (ChunkKind × List String) :=
  cs.filterMap (fun c =>
    match c.kind with
    | ChunkKind.prose => none
    | k => some (k, c.toks))

/-- The ordered sequence of atomic (code/math) blocks of a document. -/
def atomBlocks (bs : List Block) : List (ChunkKind × List String) :=
  bs.filterMap (fun b =>
    match b with
    | Block.prose _ => none
    | Block.code ts => some (ChunkKind.code, ts)
    | Block.math ts => some (ChunkKind.math, ts))

/-- Whether a block is prose. -/
def isProseBlock : Block → Bool
  | Block.prose _ => true
  | _ => false

/-! ## ChatBot component (embedded from
`src/frontend/src/components/ChatBot/index.js`) -/

/-- A message of the ChatBot panel state (`sender`, `message`). -/
structure PanelMsg where
  sender : String
  message : String
deriving DecidableEq

/-- One entry of the `history` array sent to the backend. -/
structure HistEntry where
  role : String
  content : String
deriving DecidableEq

/-- `handleSend` line 68-71: map a panel message to a history entry
(`role: msg.sender === "user" ? "user" : "assistant"`). -/
def toHistEntry (m : PanelMsg) : HistEntry :=
  HistEntry.mk (if m.sender = "user" then "user" else "assistant") m.message

/-- The JSON body posted to `/api/v1/chat/stream`. -/
structure StreamBody where
  message : String
  history : List HistEntry
deriving DecidableEq

/-- `handleSend` lines 67-82: the request body, with
`history = messages.slice(-10).map(...)` — the last 10 messages of the
panel state. -/
def streamRequestBody (messages : List PanelMsg) (text : String) :
    StreamBody :=
  StreamBody.mk text ((sliceLast 10 messages).map toHistEntry)

/-- The ChatBot's fixed error reply (`handleSend` catch branch). -/
def chatApology : String :=
  "Sorry, I encountered an error. Please make sure the backend server is running and try again."

/-- The ChatBot's fallback default reply when the non-streaming response has
no `response` field. -/
def fallbackDefault : String := "Sorry, I could not generate a response."

/-- Trim leading and trailing whitespace from a character list (JavaScript
`String.prototype.trim`). -/
def trimChars (l : List Char) : List Char :=
  ((l.dropWhile Char.isWhitespace).reverse.dropWhile Char.isWhitespace).reverse

/-- The outcomes of `handleSend`'s two fetches, as the environment delivers
them: `streamFetch` is `none` when the fetch throws, otherwise the HTTP
`ok` flag and the content pieces parsed out of the SSE stream (the byte and
`data:` line decoding is abstracted to the list of extracted content
strings); `fallbackFetch` is `none` when the fallback fetch throws,
otherwise its `ok` flag and the optional `response` field of its JSON
body. -/
structure StreamEnv where
  streamFetch : Option (Bool × List String)
  fallbackFetch : Option (Bool × Option String)
deriving DecidableEq

/-- `handleSend`'s catch branch (lines 177-197): if the last message is an
assistant message that is still empty, replace it by the apology, otherwise
push the apology. -/
def pushApology (msgs : List PanelMsg) : List PanelMsg :=
  match msgs.getLast? with
  | some last =>
    if last.sender = "assistant" ∧ last.message = "" then
      msgs.dropLast ++ [PanelMsg.mk "assistant" chatApology]
    else
      msgs ++ [PanelMsg.mk "assistant" chatApology]
  | none => msgs ++ [PanelMsg.mk "assistant" chatApology]

/-- Embedded from `handleSend` (ChatBot/index.js lines 52-201): append the
user message; fetch the streaming endpoint (throwing on network error or
non-OK status, both caught by the apology branch); on a streaming response,
append an assistant placeholder and accumulate the streamed content; if no
content arrived, try the non-streaming fallback — a thrown fallback fetch is
caught by the apology branch, an OK fallback fills the placeholder with the
response (or the default text), and a non-OK fallback leaves the empty
placeholder untouched. Returns the final message list. -/
def handleSendModel (msgs : List PanelMsg) (text : String)
    (env : StreamEnv) : List PanelMsg :=
  if (trimChars text.toList).isEmpty then msgs
  else
    let m1 := msgs ++ [PanelMsg.mk "user" text]
    match env.streamFetch with
    | none => pushApology m1
    | some (false, _) => pushApology m1
    | some (true, pieces) =>
      let streamed := String.join pieces
      let m2 := m1 ++ [PanelMsg.mk "assistant" streamed]
      if streamed = "" then
        match env.fallbackFetch with
        | none => pushApology m2
        | some (true, d) =>
          let resp := match d with
            | some s => if s = "" then fallbackDefault else s
            | none => fallbackDefault
          m2.dropLast ++ [PanelMsg.mk "assistant" resp]
        | some (false, _) => m2
      else m2

/-! ## useChat hook (embedded from `src/frontend/src/hooks/useChat.js`) -/

/-- The ChatContext state the hook reads and writes. -/
structure ChatCtx where
  sessionId : Option String
  currentChapter : Option String
  selectedText : Option String
deriving DecidableEq

/-- The JSON body of `POST /chat/message`. -/
structure ReqBody where
  session_id : Option String
  chapter_id : Option String
  content : String
  selected_text : Option String
deriving DecidableEq

/-- The JSON body of a successful response. -/
structure RespData where
  session_id : Option String
  response : String
  sources : List String
deriving DecidableEq

/-- The outcome of the hook's fetch: a thrown network error with its
message, or an HTTP response with its `ok` flag, status and body. -/
inductive FetchOutcome
  | netError (msg : String)
  | httpResp (ok : Bool) (status : Nat) (data : RespData)
deriving DecidableEq

/-- A chat message record the hook appends via `addMessage`. -/
structure ChatMsg where
  role : String
  content : String
  sources : List String
  isError : Bool
deriving DecidableEq

/-- The hook's fixed error reply (`sendMessage` catch branch, line 83). -/
def hookApology : String := "Sorry, I encountered an error. Please try again."

/-- The error message record appended on failure (lines 80-87). -/
def hookErrorMsg : ChatMsg := ChatMsg.mk "assistant" hookApology [] true

/-- The `HTTP error: <status>` message thrown on a non-OK response
(line 55). -/
def httpErrorText (status : Nat) : String :=
  "HTTP error: " ++ toString status

/-- Everything observable about one `sendMessage` call: the request body it
posts, the context state at the moment the request is issued, the messages
appended (in order), the final error state and the final context state. -/
structure SendOutcome where
  requestBody : ReqBody
  ctxAtFetch : ChatCtx
  appended : List ChatMsg
  errorState : Option String
  finalCtx : ChatCtx
deriving DecidableEq

/-- Embedded from `sendMessage` (useChat.js lines 19-95): append the user
message; clear the shared selected text (`setSelectedText(null)`, lines
35-38) before the fetch — the request body (lines 46-51) still carries the
selected text captured in the closure; on a non-OK status throw
`HTTP error: <status>`; on success append the assistant message and update
the session id; any thrown error is caught, stored in the error state, and
replaced in the chat by the fixed apology record. -/
def sendMessageModel (ctx : ChatCtx) (content : String)
    (outcome : FetchOutcome) : SendOutcome :=
  let userMsg := ChatMsg.mk "user" content [] false
  let ctx1 := ChatCtx.mk ctx.sessionId ctx.currentChapter none
  let body := ReqBody.mk ctx.sessionId ctx.currentChapter content
    ctx.selectedText
  match outcome with
  | FetchOutcome.netError m =>
    SendOutcome.mk body ctx1 [userMsg, hookErrorMsg] (some m) ctx1
  | FetchOutcome.httpResp ok status data =>
    if ok then
      let ctx2 := match data.session_id with
        | some sid =>
          if some sid = ctx.sessionId then ctx1
          else ChatCtx.mk (some sid) ctx.currentChapter none
        | none => ctx1
      SendOutcome.mk body ctx1
        [userMsg, ChatMsg.mk "assistant" data.response data.sources false]
        none ctx2
    else
      SendOutcome.mk body ctx1 [userMsg, hookErrorMsg]
        (some (httpErrorText status)) ctx1

/-- The body of a session-fetch response. -/
structure SessionData where
  id : String
  created_at : String
  messages : List ChatMsg
deriving DecidableEq

/-- The outcome of the session fetch. -/
inductive SessionFetchOutcome
  | netError (msg : String)
  | httpResp (ok : Bool) (status : Nat) (data : SessionData)
deriving DecidableEq

/-- Everything observable about one `getSession` call: the stored session id
afterwards, the returned value or thrown error, and the error state. -/
structure GetSessionResult where
  newSessionId : Option String
  result : Except String (Option SessionData)
  errorState : Option String

/-- Embedded from `getSession` (useChat.js lines 97-123): use the target
session id or the stored one; with no id return null; on a 404 response
clear the stored session id and return null without error; on another
non-OK status or a network error, store and rethrow the error. -/
def getSessionModel (stored target : Option String)
    (outcome : SessionFetchOutcome) : GetSessionResult :=
  match target.orElse (fun _ => stored) with
  | none => GetSessionResult.mk stored (Except.ok none) none
  | some _ =>
    match outcome with
    | SessionFetchOutcome.netError m =>
      GetSessionResult.mk stored (Except.error m) (some m)
    | SessionFetchOutcome.httpResp ok status d =>
      if ok then
        GetSessionResult.mk stored (Except.ok (some d)) none
      else if status = 404 then
        GetSessionResult.mk none (Except.ok none) none
      else
        GetSessionResult.mk stored (Except.error (httpErrorText status))
          (some (httpErrorText status))

/-! ## Selection handler (embedded from `src/unnamed/part_007`,
the SelectionHandler component) -/

/-- Embedded from `handleMouseUp` (lines 16-34): the raw browser selection
is trimmed and becomes the current selection (showing the tooltip) only when
it has at least 10 characters. -/
def extractSelection (raw : List Char) : Option (List Char) :=
  let text := trimChars raw
  if 10 ≤ text.length then some text else none

/-- The three-dot suffix appended to truncated selections. -/
def dots : List Char := ['.', '.', '.']

/-- Embedded from `handleAskAboutThis` (lines 68-83): selections longer than
500 characters are truncated to their first 500 characters with `...`
appended before being handed to the chat as selected text. -/
def truncateSelection (s : List Char) : List Char :=
  if 500 < s.length then s.take 500 ++ dots else s

/-! ## Theorems -/

/-- C4: for every fixed index state and query vector (and any similarity
function, topK and filter), the Vector Index query returns a list sorted by
similarity score descending, ties between equal scores broken by chunk
position ascending. -/
theorem vector_index_query_sorted (sim : List ℚ → List ℚ → ℚ) (idx : VIndex)
    (qv : List ℚ) (topK : Nat) (filt : Option String) :
    List.Sorted rankBefore (VIndex.query sim idx qv topK filt) := by
  unfold VIndex.query
  exact List.Pairwise.sublist (List.take_sublist _ _)
    (List.sorted_insertionSort rankBefore _)

/-- C1: for every question whose text contains a configured blacklisted term
(case-insensitive substring match), the OOS classifier classifies it
out-of-scope with the tier-1 blacklist reason, for every embedding function,
similarity function and index state — i.e. regardless of the semantic
similarity score, without the remaining tiers influencing the decision. -/
theorem oos_blacklist_short_circuits (cfg : OOSConfig) (q : Question)
    (h : blacklistHit cfg.blacklist q.content = true) :
    ∀ (embedF : String → List ℚ) (sim : List ℚ → List ℚ → ℚ) (idx : VIndex),
      (classifyOOS embedF sim idx cfg q).inScope = false
      ∧ (classifyOOS embedF sim idx cfg q).reason = some "blacklist" := by
  intro embedF sim idx
  unfold classifyOOS
  simp [h]

/-- Witness for C1 at a concrete blacklisted question and a concrete index
whose similarity score is high (1). -/
theorem oos_blacklist_short_circuits_witness :
    blacklistHit ["stock"] "What is the stock price of Tesla" = true
    ∧ ((classifyOOS (fun _ => [1]) (fun _ _ => (1 : ℚ)) oosIdxEx
          (defaultOOSConfig ["stock"])
          (Question.mk "What is the stock price of Tesla" none)).inScope = false
        ∧ (classifyOOS (fun _ => [1]) (fun _ _ => (1 : ℚ)) oosIdxEx
            (defaultOOSConfig ["stock"])
            (Question.mk "What is the stock price of Tesla" none)).reason
          = some "blacklist") :=
  ⟨by decide,
    oos_blacklist_short_circuits (defaultOOSConfig ["stock"])
      (Question.mk "What is the stock price of Tesla" none) (by decide)
      (fun _ => [1]) (fun _ _ => (1 : ℚ)) oosIdxEx⟩

/-- C2 counterexample: a question with no blacklist hit whose best-matching
chunk scores 3/5 (at or above the default 0.5 threshold) is nevertheless
classified out-of-scope, because the tier-3 module-classification check flags
a mismatch. This refutes the claim that, absent a blacklist hit, the
classifier is out-of-scope exactly when the top score is below the threshold. -/
theorem oos_threshold_claim_counterexample :
    blacklistHit oosCfgEx.blacklist oosQEx.content = false
    ∧ (VIndex.query oosSimEx oosIdxEx (oosEmbedEx oosQEx.content) 1
        none).head? = some oosScoredEx
    ∧ oosCfgEx.threshold ≤ oosScoredEx.score
    ∧ (classifyOOS oosEmbedEx oosSimEx oosIdxEx oosCfgEx oosQEx).inScope
      = false := by
  refine ⟨by decide, by decide, by decide, by decide⟩

/-- C2 (amended): for every question with no blacklist hit whose query has a
best-matching chunk, the classifier is out-of-scope exactly when the top
similarity score is below the configured threshold or the tier-3 module
check flags a mismatch; a question at or above the threshold with no
blacklist hit and no module mismatch is in-scope. -/
theorem oos_threshold_decision (embedF : String → List ℚ)
    (sim : List ℚ → List ℚ → ℚ) (idx : VIndex) (cfg : OOSConfig)
    (q : Question) (best : Scored)
    (hbl : blacklistHit cfg.blacklist q.content = false)
    (hbest : (VIndex.query sim idx (embedF q.content) 1 none).head?
      = some best) :
    (classifyOOS embedF sim idx cfg q).inScope = false ↔
      (best.score < cfg.threshold ∨ moduleMismatch q best = true) := by
  unfold classifyOOS
  simp only [hbl, Bool.false_eq_true, if_false, hbest]
  by_cases h1 : best.score < cfg.threshold
  · simp [h1]
  · by_cases h2 : moduleMismatch q best
    · simp [h1, h2]
    · simp [h1, h2]

/-- Witness for the amended C2 at the concrete mismatching question: the
hypotheses hold and the decision biconditional is realized. -/
theorem oos_threshold_decision_witness :
    blacklistHit oosCfgEx.blacklist oosQEx.content = false
    ∧ (VIndex.query oosSimEx oosIdxEx (oosEmbedEx oosQEx.content) 1
        none).head? = some oosScoredEx
    ∧ ((classifyOOS oosEmbedEx oosSimEx oosIdxEx oosCfgEx oosQEx).inScope
        = false ↔
      (oosScoredEx.score < oosCfgEx.threshold
        ∨ moduleMismatch oosQEx oosScoredEx = true)) :=
  ⟨by decide, by decide,
    oos_threshold_decision oosEmbedEx oosSimEx oosIdxEx oosCfgEx oosQEx
      oosScoredEx (by decide) (by decide)⟩

/-- C3: whenever the Answer Generator call fails, the orchestrator persists
no assistant Message for that turn — the session state after the failure is
exactly the state after the user's Message was appended, and nothing else. -/
theorem orchestrator_failed_generation_persists_nothing
    (deps : OrchDeps) (cfg : OOSConfig) (idx : VIndex) (sess : List SMsg)
    (req : ChatRequest) (e : GenError)
    (hin : (classifyOOS deps.embedF deps.sim idx cfg
      (Question.mk req.content req.moduleCtx)).inScope = true)
    (hgen : deps.generate (orchContext deps idx sess req) = Except.error e) :
    (handleChatMessage deps cfg idx sess req).1
      = sess ++ [userMessageOf req] := by
  unfold handleChatMessage
  simp [hin, hgen]

/-- Witness for C3: an always-failing generator on a concrete in-scope
request leaves exactly the user's Message in the session. -/
theorem orchestrator_failed_generation_persists_nothing_witness :
    (classifyOOS orchDepsEx.embedF orchDepsEx.sim oosIdxEx oosCfgEx
        (Question.mk chatReqEx.content chatReqEx.moduleCtx)).inScope = true
    ∧ orchDepsEx.generate (orchContext orchDepsEx oosIdxEx [] chatReqEx)
      = Except.error GenError.timeout
    ∧ (handleChatMessage orchDepsEx oosCfgEx oosIdxEx [] chatReqEx).1
      = [] ++ [userMessageOf chatReqEx] :=
  ⟨by decide, rfl,
    orchestrator_failed_generation_persists_nothing orchDepsEx oosCfgEx
      oosIdxEx [] chatReqEx GenError.timeout (by decide) rfl⟩

/-- Invariant of the prose accumulator: the new content of the closed chunks
followed by the new content of the open buffer is exactly the pending input;
the carried count never exceeds the buffer; every closed chunk is prose. -/
theorem chunkTokens_spec (p : ChunkerParams) :
    ∀ (ts : List String) (k : Nat) (buf : List String), k ≤ buf.length →
      (((chunkTokens p k buf ts).closed.map newToks).flatten
          ++ (chunkTokens p k buf ts).buf.drop (chunkTokens p k buf ts).carried
        = buf.drop k ++ ts)
      ∧ (chunkTokens p k buf ts).carried ≤ (chunkTokens p k buf ts).buf.length
      ∧ ∀ c ∈ (chunkTokens p k buf ts).closed, c.kind = ChunkKind.prose := by
  intro ts
  induction ts with
  | nil =>
    intro k buf hk
    refine ⟨by simp [chunkTokens], by simpa [chunkTokens] using hk, ?_⟩
    simp [chunkTokens]
  | cons t ts ih =>
    intro k buf hk
    by_cases h : p.target ≤ (buf ++ [t]).length
    · have hrec := ih (overlapTail (buf ++ [t])).length (overlapTail (buf ++ [t]))
        (le_refl _)
      obtain ⟨ih1, ih2, ih3⟩ := hrec
      have hdrop : (buf ++ [t]).drop k = buf.drop k ++ [t] :=
        List.drop_append_of_le_length hk
      refine ⟨?_, ?_, ?_⟩
      · simp only [chunkTokens, h, if_true, List.map_cons, List.flatten_cons]
        rw [List.append_assoc, ih1, newToks, hdrop, List.append_assoc,
          List.drop_length]
        simp
      · simpa only [chunkTokens, h, if_true] using ih2
      · intro c hc
        simp only [chunkTokens, h, if_true, List.mem_cons] at hc
        rcases hc with rfl | hc
        · rfl
        · exact ih3 c hc
    · have hk1 : k ≤ (buf ++ [t]).length := by
        simp only [List.length_append, List.length_cons, List.length_nil]
        omega
      obtain ⟨ih1, ih2, ih3⟩ := ih k (buf ++ [t]) hk1
      have hdrop : (buf ++ [t]).drop k = buf.drop k ++ [t] :=
        List.drop_append_of_le_length hk
      refine ⟨?_, ?_, ?_⟩
      · simp only [chunkTokens, h, if_false]
        rw [ih1, hdrop, List.append_assoc]
        rfl
      · simpa only [chunkTokens, h, if_false] using ih2
      · intro c hc
        simp only [chunkTokens, h, if_false] at hc
        exact ih3 c hc

/-- Coverage invariant of the block walk: the new content of all produced
chunks is the open buffer's new content followed by the document tokens. -/
theorem chunkBlocks_cover (p : ChunkerParams) :
    ∀ (bs : List Block) (k : Nat) (buf : List String), k ≤ buf.length →
      ((chunkBlocks p k buf bs).map newToks).flatten
        = buf.drop k ++ docTokens bs := by
  intro bs
  induction bs with
  | nil =>
    intro k buf hk
    by_cases h : buf.isEmpty
    · have : buf = [] := List.isEmpty_iff.mp h
      simp [chunkBlocks, flushBuf, h, docTokens, this]
    · simp [chunkBlocks, flushBuf, h, docTokens, newToks]
  | cons b bs ih =>
    intro k buf hk
    cases b with
    | prose ts =>
      obtain ⟨h1, h2, _⟩ := chunkTokens_spec p ts k buf hk
      have hrec := ih (chunkTokens p k buf ts).carried
        (chunkTokens p k buf ts).buf h2
      simp only [chunkBlocks, List.map_append, List.flatten_append, hrec,
        docTokens, List.map_cons, List.flatten_cons, blockToks]
      rw [← List.append_assoc, h1, List.append_assoc]
    | code ts =>
      have hrec := ih 0 [] (by simp)
      by_cases h : buf.isEmpty
      · have hbuf : buf = [] := List.isEmpty_iff.mp h
        simp [chunkBlocks, flushBuf, h, hbuf, docTokens, blockToks, newToks,
          hrec]
      · simp [chunkBlocks, flushBuf, h, docTokens, blockToks, newToks, hrec]
    | math ts =>
      have hrec := ih 0 [] (by simp)
      by_cases h : buf.isEmpty
      · have hbuf : buf = [] := List.isEmpty_iff.mp h
        simp [chunkBlocks, flushBuf, h, hbuf, docTokens, blockToks, newToks,
          hrec]
      · simp [chunkBlocks, flushBuf, h, docTokens, blockToks, newToks, hrec]

/-- A list of prose chunks contributes no atomic chunks. -/
theorem atomChunks_of_prose :
    ∀ (cs : List Chunk), (∀ c ∈ cs, c.kind = ChunkKind.prose) →
      atomChunks cs = [] := by
  intro cs
  induction cs with
  | nil => intro _; rfl
  | cons c cs ih =>
    intro h
    have hc : c.kind = ChunkKind.prose := h c (by simp)
    have hcs := ih (fun d hd => h d (List.mem_cons_of_mem c hd))
    simp only [atomChunks, List.filterMap_cons, hc] at hcs ⊢
    exact hcs

/-- Flushing contributes no atomic chunks. -/
theorem atomChunks_flushBuf (k : Nat) (buf : List String) :
    atomChunks (flushBuf k buf) = [] := by
  by_cases h : buf.isEmpty
  · simp [flushBuf, h, atomChunks]
  · simp [flushBuf, h, atomChunks]

/-- Atomicity invariant of the block walk: the produced atomic chunks are
exactly the document's code/math blocks, in order and unsplit. -/
theorem chunkBlocks_atoms (p : ChunkerParams) :
    ∀ (bs : List Block) (k : Nat) (buf : List String), k ≤ buf.length →
      atomChunks (chunkBlocks p k buf bs) = atomBlocks bs := by
  intro bs
  induction bs with
  | nil =>
    intro k buf _
    simp [chunkBlocks, atomChunks_flushBuf, atomBlocks]
  | cons b bs ih =>
    intro k buf hk
    cases b with
    | prose ts =>
      obtain ⟨_, h2, h3⟩ := chunkTokens_spec p ts k buf hk
      have hrec := ih (chunkTokens p k buf ts).carried
        (chunkTokens p k buf ts).buf h2
      simp only [chunkBlocks, atomChunks, List.filterMap_append]
      rw [← atomChunks, ← atomChunks, atomChunks_of_prose _ h3, hrec]
      simp [atomBlocks]
    | code ts =>
      have hrec := ih 0 [] (by simp)
      simp only [chunkBlocks, atomChunks, List.filterMap_append,
        List.filterMap_cons]
      rw [← atomChunks, ← atomChunks, atomChunks_flushBuf, hrec]
      simp [atomBlocks]
    | math ts =>
      have hrec := ih 0 [] (by simp)
      simp only [chunkBlocks, atomChunks, List.filterMap_append,
        List.filterMap_cons]
      rw [← atomChunks, ← atomChunks, atomChunks_flushBuf, hrec]
      simp [atomBlocks]

/-- A prose run that never reaches the target size closes no chunk. -/
theorem chunkTokens_small (p : ChunkerParams) :
    ∀ (ts : List String) (k : Nat) (buf : List String),
      buf.length + ts.length < p.target →
      chunkTokens p k buf ts = ProseState.mk [] k (buf ++ ts) := by
  intro ts
  induction ts with
  | nil => intro k buf _; simp [chunkTokens]
  | cons t ts ih =>
    intro k buf h
    have hlt : ¬ p.target ≤ (buf ++ [t]).length := by
      simp only [List.length_append, List.length_cons, List.length_nil]
      simp only [List.length_cons] at h
      omega
    have hbound : (buf ++ [t]).length + ts.length < p.target := by
      simp only [List.length_append, List.length_cons, List.length_nil]
      simp only [List.length_cons] at h
      omega
    simp only [chunkTokens, hlt, if_false, ih k (buf ++ [t]) hbound,
      List.append_assoc, List.singleton_append]

/-- An all-prose document whose total length stays under the target size is
flushed as a single buffer. -/
theorem chunkBlocks_small (p : ChunkerParams) :
    ∀ (bs : List Block) (buf : List String),
      bs.all isProseBlock = true →
      buf.length + (docTokens bs).length < p.target →
      chunkBlocks p 0 buf bs = flushBuf 0 (buf ++ docTokens bs) := by
  intro bs
  induction bs with
  | nil => intro buf _ _; simp [chunkBlocks, docTokens]
  | cons b bs ih =>
    cases b with
    | prose ts =>
      intro buf hall hlen
      have hall2 : bs.all isProseBlock = true := by
        simp only [List.all_cons, Bool.and_eq_true] at hall
        exact hall.2
      have hdoc : docTokens (Block.prose ts :: bs) = ts ++ docTokens bs := by
        simp [docTokens, blockToks]
      rw [hdoc] at hlen
      simp only [List.length_append] at hlen
      have hts : buf.length + ts.length < p.target := by omega
      have hrest : (buf ++ ts).length + (docTokens bs).length < p.target := by
        simp only [List.length_append]
        omega
      simp only [chunkBlocks, chunkTokens_small p ts 0 buf hts]
      rw [ih (buf ++ ts) hall2 hrest, hdoc, List.append_assoc]
      rfl
    | code ts =>
      intro buf hall _
      simp [isProseBlock] at hall
    | math ts =>
      intro buf hall _
      simp [isProseBlock] at hall

/-- C5: for every input document, (a) the concatenation of the chunks' texts
minus their carried overlap regions reconstructs the document's tokens with
no gaps, (b) every code or math block appears as exactly one atomic chunk
with its full text, never split, and (c) a nonempty all-prose document
shorter than one target chunk produces exactly one chunk holding the whole
document. -/
theorem chunker_properties :
    (∀ (p : ChunkerParams) (bs : List Block),
        ((chunkDocument p bs).map newToks).flatten = docTokens bs)
    ∧ (∀ (p : ChunkerParams) (bs : List Block),
        atomChunks (chunkDocument p bs) = atomBlocks bs)
    ∧ (∀ (p : ChunkerParams) (bs : List Block),
        bs.all isProseBlock = true → docTokens bs ≠ [] →
        (docTokens bs).length < p.target →
        chunkDocument p bs = [Chunk.mk ChunkKind.prose (docTokens bs) 0]) := by
  refine ⟨?_, ?_, ?_⟩
  · intro p bs
    simpa [chunkDocument] using chunkBlocks_cover p bs 0 [] (by simp)
  · intro p bs
    exact chunkBlocks_atoms p bs 0 [] (by simp)
  · intro p bs hall hne hlen
    have hemp : (docTokens bs).isEmpty = false := by
      simp [List.isEmpty_iff, hne]
    unfold chunkDocument
    rw [chunkBlocks_small p bs [] hall (by simpa using hlen)]
    simp [flushBuf, hemp]

/-- Witness for C5 part (c): a three-token prose document with target size 8
produces exactly one chunk carrying the whole document. -/
theorem chunker_properties_witness :
    [Block.prose ["a", "b", "c"]].all isProseBlock = true
    ∧ docTokens [Block.prose ["a", "b", "c"]] ≠ []
    ∧ (docTokens [Block.prose ["a", "b", "c"]]).length
      < (ChunkerParams.mk 8).target
    ∧ chunkDocument (ChunkerParams.mk 8) [Block.prose ["a", "b", "c"]]
      = [Chunk.mk ChunkKind.prose (docTokens [Block.prose ["a", "b", "c"]]) 0] :=
  ⟨by decide, by decide, by decide,
    chunker_properties.2.2 (ChunkerParams.mk 8) [Block.prose ["a", "b", "c"]]
      (by decide) (by decide) (by decide)⟩

/-- C6: the conversational context sent with every chat request is the
panel's message list as a sliding window of at most the last 10 messages;
the window is a suffix of the session (the oldest messages are the ones
dropped), it is the whole session when there are at most 10 messages, and
exactly 10 otherwise. -/
theorem chat_history_sliding_window (msgs : List PanelMsg) (text : String) :
    (streamRequestBody msgs text).history.length = min msgs.length 10
    ∧ ∃ dropped kept, msgs = dropped ++ kept
        ∧ (streamRequestBody msgs text).history = kept.map toHistEntry
        ∧ dropped.length = msgs.length - 10 := by
  constructor
  · simp only [streamRequestBody, sliceLast, List.length_map,
      List.length_drop]
    omega
  · refine ⟨msgs.take (msgs.length - 10), msgs.drop (msgs.length - 10),
      (List.take_append_drop _ _).symm, rfl, ?_⟩
    simp only [List.length_take]
    omega

/-- C7 counterexample: a chat request that fails with a non-OK HTTP status
on the ChatBot's non-streaming fallback (after an OK streaming response that
delivered no content) leaves an empty assistant message as the visible
reply — not the fixed apology text. -/
theorem chat_error_reply_counterexample :
    (handleSendModel [] "hi"
        (StreamEnv.mk (some (true, [])) (some (false, none)))).getLast?
      = some (PanelMsg.mk "assistant" "")
    ∧ chatApology ≠ "" ∧ hookApology ≠ "" := by
  refine ⟨rfl, by decide, by decide⟩

/-- C7 (amended): every failing chat request in the useChat hook produces
the fixed apology record as the assistant reply, with the raw error exposed
only through the separate error state; in the ChatBot, every thrown fetch
error (network failure, non-OK streaming status, or a throwing fallback
fetch) ends the message list with the fixed apology; the one exception is an
OK streaming response with no content followed by a non-OK fallback status,
which leaves an empty assistant placeholder instead of an apology. -/
theorem chat_error_reply_fixed :
    (∀ (ctx : ChatCtx) (content m : String),
        (sendMessageModel ctx content (FetchOutcome.netError m)).appended
          = [ChatMsg.mk "user" content [] false, hookErrorMsg]
        ∧ (sendMessageModel ctx content
            (FetchOutcome.netError m)).errorState = some m)
    ∧ (∀ (ctx : ChatCtx) (content : String) (status : Nat)
          (data : RespData),
        (sendMessageModel ctx content
            (FetchOutcome.httpResp false status data)).appended
          = [ChatMsg.mk "user" content [] false, hookErrorMsg]
        ∧ (sendMessageModel ctx content
            (FetchOutcome.httpResp false status data)).errorState
          = some (httpErrorText status))
    ∧ (∀ msgs : List PanelMsg,
        (pushApology msgs).getLast? = some (PanelMsg.mk "assistant" chatApology))
    ∧ (∀ (msgs : List PanelMsg) (text : String)
          (fb : Option (Bool × Option String)),
        (trimChars text.toList).isEmpty = false →
        handleSendModel msgs text (StreamEnv.mk none fb)
          = pushApology (msgs ++ [PanelMsg.mk "user" text]))
    ∧ (∀ (msgs : List PanelMsg) (text : String) (d : List String)
          (fb : Option (Bool × Option String)),
        (trimChars text.toList).isEmpty = false →
        handleSendModel msgs text (StreamEnv.mk (some (false, d)) fb)
          = pushApology (msgs ++ [PanelMsg.mk "user" text]))
    ∧ (∀ (msgs : List PanelMsg) (text : String) (pieces : List String),
        (trimChars text.toList).isEmpty = false →
        String.join pieces = "" →
        handleSendModel msgs text (StreamEnv.mk (some (true, pieces)) none)
          = pushApology (msgs ++ [PanelMsg.mk "user" text,
              PanelMsg.mk "assistant" ""]))
    ∧ (∀ (msgs : List PanelMsg) (text : String) (pieces : List String)
          (fbd : Option String),
        (trimChars text.toList).isEmpty = false →
        String.join pieces = "" →
        handleSendModel msgs text
            (StreamEnv.mk (some (true, pieces)) (some (false, fbd)))
          = msgs ++ [PanelMsg.mk "user" text, PanelMsg.mk "assistant" ""]) := by
  refine ⟨?_, ?_, ?_, ?_, ?_, ?_, ?_⟩
  · intro ctx content m
    exact ⟨rfl, rfl⟩
  · intro ctx content status data
    exact ⟨rfl, rfl⟩
  · intro msgs
    unfold pushApology
    match h : msgs.getLast? with
    | some last =>
      by_cases hc : last.sender = "assistant" ∧ last.message = ""
      · simp [hc]
      · simp [hc]
    | none => simp
  · intro msgs text fb h
    have h2 : ¬ ((trimChars text.toList).isEmpty = true) := by rw [h]; exact Bool.false_ne_true
    unfold handleSendModel
    rw [if_neg h2]
  · intro msgs text d fb h
    have h2 : ¬ ((trimChars text.toList).isEmpty = true) := by rw [h]; exact Bool.false_ne_true
    unfold handleSendModel
    rw [if_neg h2]
  · intro msgs text pieces h hj
    have h2 : ¬ ((trimChars text.toList).isEmpty = true) := by rw [h]; exact Bool.false_ne_true
    unfold handleSendModel
    rw [if_neg h2]
    simp [hj]
  · intro msgs text pieces fbd h hj
    have h2 : ¬ ((trimChars text.toList).isEmpty = true) := by rw [h]; exact Bool.false_ne_true
    unfold handleSendModel
    rw [if_neg h2]
    simp [hj]

/-- Witness for the amended C7: on a concrete nonempty message the throwing
streaming fetch ends the chat with the fixed apology. -/
theorem chat_error_reply_fixed_witness :
    (trimChars ("hi".toList)).isEmpty = false
    ∧ handleSendModel [] "hi" (StreamEnv.mk none none)
      = pushApology ([] ++ [PanelMsg.mk "user" "hi"]) :=
  ⟨by decide, chat_error_reply_fixed.2.2.2.1 [] "hi" none (by decide)⟩

/-- C8: when the session fetch for a referenced session id returns 404, the
call does not fail user-visibly: the stored session id is cleared, the call
returns null, and no error is recorded. -/
theorem session_404_starts_fresh (stored target : Option String)
    (s : String) (d : SessionData)
    (hsid : target.orElse (fun _ => stored) = some s) :
    (getSessionModel stored target
        (SessionFetchOutcome.httpResp false 404 d)).newSessionId = none
    ∧ (getSessionModel stored target
        (SessionFetchOutcome.httpResp false 404 d)).result = Except.ok none
    ∧ (getSessionModel stored target
        (SessionFetchOutcome.httpResp false 404 d)).errorState = none := by
  unfold getSessionModel
  rw [hsid]
  exact ⟨rfl, rfl, rfl⟩

/-- Witness for C8 at a concrete stored session id. -/
theorem session_404_starts_fresh_witness :
    (none : Option String).orElse (fun _ => some "sess-1") = some "sess-1"
    ∧ ((getSessionModel (some "sess-1") none
          (SessionFetchOutcome.httpResp false 404
            (SessionData.mk "sess-1" "t0" []))).newSessionId = none
        ∧ (getSessionModel (some "sess-1") none
            (SessionFetchOutcome.httpResp false 404
              (SessionData.mk "sess-1" "t0" []))).result = Except.ok none
        ∧ (getSessionModel (some "sess-1") none
            (SessionFetchOutcome.httpResp false 404
              (SessionData.mk "sess-1" "t0" []))).errorState = none) :=
  ⟨rfl, session_404_starts_fresh (some "sess-1") none "sess-1"
    (SessionData.mk "sess-1" "t0" []) rfl⟩

/-- C9: whenever a selected text is set, `sendMessage` puts it in the
outgoing request body while the shared selected-text state is already reset
to null at the moment the request is issued (and stays null afterwards), so
one highlighted passage is attached to at most one request. -/
theorem selected_text_attached_once (ctx : ChatCtx) (content t : String)
    (outcome : FetchOutcome) (h : ctx.selectedText = some t) :
    (sendMessageModel ctx content outcome).requestBody.selected_text = some t
    ∧ (sendMessageModel ctx content outcome).ctxAtFetch.selectedText = none
    ∧ (sendMessageModel ctx content outcome).finalCtx.selectedText = none := by
  cases outcome with
  | netError m => exact ⟨h, rfl, rfl⟩
  | httpResp ok status data =>
    cases ok with
    | false => exact ⟨h, rfl, rfl⟩
    | true =>
      refine ⟨h, rfl, ?_⟩
      cases hs : data.session_id with
      | none => simp [sendMessageModel, hs]
      | some sid =>
        simp only [sendMessageModel, hs]
        by_cases he : some sid = ctx.sessionId
        · rw [if_pos he]
          simp
        · rw [if_neg he]
          simp

/-- Witness for C9: a concrete call with a selected passage set. -/
theorem selected_text_attached_once_witness :
    (ChatCtx.mk none (some "ch-1-1") (some "embodied agents")).selectedText
      = some "embodied agents"
    ∧ ((sendMessageModel
          (ChatCtx.mk none (some "ch-1-1") (some "embodied agents"))
          "what does this mean"
          (FetchOutcome.netError "boom")).requestBody.selected_text
        = some "embodied agents"
      ∧ (sendMessageModel
          (ChatCtx.mk none (some "ch-1-1") (some "embodied agents"))
          "what does this mean"
          (FetchOutcome.netError "boom")).ctxAtFetch.selectedText = none
      ∧ (sendMessageModel
          (ChatCtx.mk none (some "ch-1-1") (some "embodied agents"))
          "what does this mean"
          (FetchOutcome.netError "boom")).finalCtx.selectedText = none) :=
  ⟨rfl, selected_text_attached_once
    (ChatCtx.mk none (some "ch-1-1") (some "embodied agents"))
    "what does this mean" "embodied agents"
    (FetchOutcome.netError "boom") rfl⟩

/-- C10: the ask-about-selection flow triggers only for selections of at
least 10 characters after trimming, and the selected text handed to the
chat never exceeds 503 characters; selections longer than 500 characters
are truncated to their first 500 characters with three dots appended. -/
theorem selection_flow_bounds :
    (∀ (raw s : List Char), extractSelection raw = some s →
        s = trimChars raw ∧ 10 ≤ s.length)
    ∧ (∀ s : List Char, (truncateSelection s).length ≤ 503)
    ∧ (∀ s : List Char, 500 < s.length →
        truncateSelection s = s.take 500 ++ dots) := by
  refine ⟨?_, ?_, ?_⟩
  · intro raw s h
    simp only [extractSelection] at h
    by_cases h10 : 10 ≤ (trimChars raw).length
    · rw [if_pos h10] at h
      injection h with h
      subst h
      exact ⟨rfl, h10⟩
    · rw [if_neg h10] at h
      cases h
  · intro s
    unfold truncateSelection
    by_cases h : 500 < s.length
    · rw [if_pos h]
      simp only [List.length_append, List.length_take, dots,
        List.length_cons, List.length_nil]
      omega
    · rw [if_neg h]
      omega
  · intro s h
    unfold truncateSelection
    rw [if_pos h]

/-- Witness for C10: a concrete selection that triggers the flow. -/
theorem selection_flow_bounds_witness :
    extractSelection ("  embodied intelligence  ".toList)
      = some ("embodied intelligence".toList)
    ∧ ("embodied intelligence".toList
        = trimChars ("  embodied intelligence  ".toList)
      ∧ 10 ≤ ("embodied intelligence".toList).length) :=
  ⟨by decide, selection_flow_bounds.1 ("  embodied intelligence  ".toList)
    ("embodied intelligence".toList) (by decide)⟩
